import Mathlib

/-!
Verification of the two CSV-to-Event-Hub producer scripts of the
US-flight-delay-data-pipeline repository.

Two source files are embedded:

* `src/kafka-eh/produce_to_eventhub.py` — the "protocol-client" variant,
  driving a confluent-kafka `Producer` (`stream_csv`, `make_producer`, `main`).
* `src/kafka-eh/produce_send_rows.py` — the "batch-API" variant, driving an
  `EventHubProducerClient` (`send_payload`, `main`).

Both scripts are thin orchestration around opaque broker clients, so the
embedding models each run as the sequence of externally visible actions
(produce / poll / flush / batch-create / send / close / log lines) that the
script performs, together with the script's own mutable state
(`total`, `batch_counter`).  Broker behaviour that the script merely reacts
to — whether an enqueue raises `BufferError`, whether a payload fits a
batch, whether a send succeeds — is supplied as an explicit environment
(oracle functions / flag records).  CSV parsing and the wire protocol are
out of scope per the spec; a parsed file is given as its header
(`fieldnames`) plus a list of rows.  The time-based 5-second progress print
of `stream_csv` is elided from the trace (no claim concerns it); the final
summary print is kept as a `report` event whose delivered/failed counts are
environment-supplied (they are updated by asynchronous delivery callbacks).
-/

namespace FlightPipeline

/-- A parsed CSV row: column name to string value, in column order
(Python `csv.DictReader` row). -/
abbrev Row := List (String × String)

/-- `row.get(k, d)` lookup half: the value stored under `k`, if any. -/
def rowLookup (row : Row) (k : String) : Option String :=
  (row.find? (fun p => p.1 == k)).map (fun p => p.2)

/-- Python `row.get(k, d)` on a string-valued dict. -/
def rowGetD (row : Row) (k d : String) : String :=
  (rowLookup row k).getD d

/-- Python truthiness of an optional string (`None` and `""` are falsy). -/
def optTruthy : Option String → Bool
  | some s => s ≠ ""
  | none => false

/-- Python `a or b` on optional strings: `a` if truthy, else `b`. -/
def pyOr (a b : Option String) : Option String :=
  if optTruthy a then a else b

/-- UTF-8 bytes of a string — Python `s.encode("utf-8")` (the same byte
sequence as `String.toUTF8`, computed over the character list). -/
def utf8Bytes (s : String) : List Nat :=
  (s.data.flatMap String.utf8EncodeChar).map (fun b => b.toNat)

/-- A JSON value as produced by the scripts: the rows are string maps and the
batch variant injects one integer field (`produced_at`). -/
inductive JVal where
  | jstr (s : String)
  | jnum (n : Nat)
deriving DecidableEq, Repr

/-- Models Python `json.dumps` string escaping for the characters that can
occur here: the quote and the backslash get a backslash escape.  (Control
characters would additionally be escaped by `json.dumps`; no claim depends
on them.) -/
def jsonEscapeChar (c : Char) : String :=
  if c = '"' then "\\\""
  else if c = '\\' then "\\\\"
  else String.singleton c

/-- Escape a string for a JSON string literal. -/
def jsonEscape (s : String) : String :=
  String.join (s.data.map jsonEscapeChar)

/-- Render one JSON value. -/
def jvalRender : JVal → String
  | .jstr s => "\"" ++ jsonEscape s ++ "\""
  | .jnum n => toString n

/-- Python `json.dumps` on an ordered object (default separators). -/
def jsonDumpObj (fields : List (String × JVal)) : String :=
  "\x7b" ++ String.intercalate ", "
      (fields.map (fun p => "\"" ++ jsonEscape p.1 ++ "\": " ++ jvalRender p.2))
    ++ "\x7d"

/-- `json.dumps(row)` as called by `stream_csv` (all values are strings). -/
def jsonDumpsRow (row : Row) : String :=
  jsonDumpObj (row.map (fun p => (p.1, JVal.jstr p.2)))

/-- Python dict assignment `obj[k] = v`: replace in place if the key exists,
else append at the end (dict insertion order). -/
def jobjSet (fields : List (String × JVal)) (k : String) (v : JVal) :
    List (String × JVal) :=
  if fields.any (fun p => p.1 == k) then
    fields.map (fun p => if p.1 == k then (p.1, v) else p)
  else fields ++ [(k, v)]

/-! ## Protocol-client variant: `produce_to_eventhub.py` -/

/-- One externally visible action of `produce_to_eventhub.py`.  `produce`
records the target topic, the JSON payload, the optional key bytes and
whether the enqueue was accepted (`ok = false` is the attempt that raised
`BufferError`).  `poll`/`flush` carry the timeout in seconds.  `close` never
occurs in this script (the confluent producer is not closed); it is in the
vocabulary so that absence of a close is statable. -/
inductive PEvent where
  | produce (topic : String) (value : String) (key : Option (List Nat)) (ok : Bool)
  | poll (timeoutS : Nat)
  | flush (timeoutS : Nat)
  | warn (msg : String)
  | info (msg : String)
  | report (total delivered failed : Nat)
  | close
deriving DecidableEq, Repr

/-- `make_producer`: reads `EVENTHUB_CONN` from the environment and raises
`RuntimeError` when it is unset or empty (lines 41–42); otherwise returns a
producer handle. -/
def make_producer (envConn : Option String) : Except String Unit :=
  if optTruthy envConn then Except.ok ()
  else Except.error "EVENTHUB_CONN environment variable is not set. Export your full Event Hubs connection string."

/-- `key = str(row.get(key_field, "")) if key_field else None` (lines 74–76). -/
def keyStrOf (keyField : Option String) (row : Row) : Option String :=
  if optTruthy keyField then some (rowGetD row (keyField.getD "") "") else none

/-- The key bytes passed to `producer.produce`:
`key.encode("utf-8") if key else None` (line 79). -/
def keyBytesOf (keyField : Option String) (row : Row) : Option (List Nat) :=
  match keyStrOf keyField row with
  | some s => if s = "" then none else some (utf8Bytes s)
  | none => none

/-- Line 62: `key_field and key_field not in reader.fieldnames`. -/
def keyFieldMissing (keyField : Option String) (fieldnames : List String) : Bool :=
  optTruthy keyField && !(fieldnames.contains (keyField.getD ""))

/-- Lines 62–64: a missing key column disables the key feature. -/
def effKeyField (keyField : Option String) (fieldnames : List String) : Option String :=
  if keyFieldMissing keyField fieldnames then none else keyField

/-- The mutable state of the `stream_csv` loop: `total` (line 56/71) and
`batch_counter` (line 68/91/95). -/
structure StreamState where
  total : Nat
  batchCounter : Nat
deriving DecidableEq, Repr

/-- The produce/poll/flush actions of one loop iteration before the batch
check (lines 78–89).  `bufferFull` says whether the first
`producer.produce` raised `BufferError`; on that path the script polls 1 s,
flushes 5 s and retries the same message once (the retry is modelled as
accepted — a second `BufferError` would propagate out of `stream_csv`). -/
def rowProduceEvents (topic : String) (kf : Option String) (row : Row)
    (bufferFull : Bool) : List PEvent :=
  let v := jsonDumpsRow row
  let k := keyBytesOf kf row
  if bufferFull then
    [PEvent.produce topic v k false, PEvent.poll 1, PEvent.flush 5,
     PEvent.produce topic v k true, PEvent.poll 0]
  else
    [PEvent.produce topic v k true, PEvent.poll 0]

/-- One full iteration of the `for row in reader` loop (lines 70–95):
`total += 1`, produce (with the buffer-full recovery), `poll(0)`,
`batch_counter += 1`, and `flush(30)` plus counter reset once
`batch_counter >= batch_size`. -/
def streamStep (topic : String) (batchSize : Int) (kf : Option String)
    (st : StreamState) (row : Row) (bufferFull : Bool) :
    List PEvent × StreamState :=
  let evs := rowProduceEvents topic kf row bufferFull
  let bc := st.batchCounter + 1
  if (bc : Int) ≥ batchSize then
    (evs ++ [PEvent.flush 30], ⟨st.total + 1, 0⟩)
  else
    (evs, ⟨st.total + 1, bc⟩)

/-- The `for row in reader` loop.  `bufFull i` tells whether the first
enqueue of row `i` hits `BufferError` (`i` is the pre-increment `total`,
i.e. the row's 0-based index). -/
def streamLoop (topic : String) (batchSize : Int) (kf : Option String)
    (bufFull : Nat → Bool) : StreamState → List Row → List PEvent × StreamState
  | st, [] => ([], st)
  | st, r :: rs =>
    let p := streamStep topic batchSize kf st r (bufFull st.total)
    let q := streamLoop topic batchSize kf bufFull p.2 rs
    (p.1 ++ q.1, q.2)

/-- The log lines before the loop (lines 62–67). -/
def streamHeader (keyField : Option String) (fieldnames : List String) :
    List PEvent :=
  (if keyFieldMissing keyField fieldnames then
    [PEvent.warn "key-field not in CSV columns. Ignoring key."]
   else []) ++ [PEvent.info "Starting produce loop..."]

/-- `stream_csv` (lines 55–107): header, loop, final `flush(60)` and the
final summary print, returned together with the computed `total`.
`delivered`/`failed` are the delivery-callback counters as they stand at the
final print (environment-supplied). -/
def stream_csv (topic : String) (batchSize : Int) (keyField : Option String)
    (fieldnames : List String) (rows : List Row) (bufFull : Nat → Bool)
    (delivered failed : Nat) : List PEvent × Nat :=
  let kf := effKeyField keyField fieldnames
  let body := streamLoop topic batchSize kf bufFull ⟨0, 0⟩ rows
  (streamHeader keyField fieldnames ++ body.1 ++
     [PEvent.info "Finished enqueueing rows. Flushing remaining messages...",
      PEvent.flush 60,
      PEvent.report body.2.total delivered failed],
   body.2.total)

/-- Outcome of one run of `produce_to_eventhub.main`. -/
structure PRun where
  events : List PEvent
  exitZero : Bool
deriving DecidableEq, Repr

/-- `main` (lines 109–120).  `interruptAt = some k` models a
`KeyboardInterrupt` delivered just before row `k` is processed: the handler
prints and calls `producer.flush(10)`, then `main` returns normally (exit
status 0).  With no interruption the stream runs to completion.  When
`EVENTHUB_CONN` is missing, `make_producer` raises before anything is
enqueued and the uncaught `RuntimeError` terminates the process with a
non-zero status. -/
def pMain (envConn : Option String) (topic : String) (batchSize : Int)
    (keyField : Option String) (fieldnames : List String) (rows : List Row)
    (bufFull : Nat → Bool) (delivered failed : Nat)
    (interruptAt : Option Nat) : PRun :=
  match make_producer envConn with
  | Except.error _ => ⟨[], false⟩
  | Except.ok _ =>
    match interruptAt with
    | none =>
      ⟨(stream_csv topic batchSize keyField fieldnames rows bufFull
          delivered failed).1, true⟩
    | some k =>
      let kf := effKeyField keyField fieldnames
      ⟨streamHeader keyField fieldnames ++
         (streamLoop topic batchSize kf bufFull ⟨0, 0⟩ (rows.take k)).1 ++
         [PEvent.info "Interrupted by user. Flushing and exiting...",
          PEvent.flush 10], true⟩

/-! ### Observation helpers on protocol-client traces -/

/-- Is this a successful enqueue? -/
def isProduceOk : PEvent → Bool
  | .produce _ _ _ true => true
  | _ => false

/-- The payloads of the successful enqueues, in order. -/
def produceOkValues (evs : List PEvent) : List String :=
  evs.filterMap (fun e => match e with
    | .produce _ v _ true => some v
    | _ => none)

/-- The keys of the successful enqueues, in order. -/
def produceOkKeys (evs : List PEvent) : List (Option (List Nat)) :=
  evs.filterMap (fun e => match e with
    | .produce _ _ k true => some k
    | _ => none)

/-- Number of successful enqueues. -/
def produceOkCount (evs : List PEvent) : Nat :=
  (evs.filter isProduceOk).length

/-- Number of warning lines. -/
def warnCount (evs : List PEvent) : Nat :=
  (evs.filter (fun e => match e with | .warn _ => true | _ => false)).length

/-- Is this the final-summary report event? -/
def isReport : PEvent → Bool
  | .report _ _ _ => true
  | _ => false

/-- Events the loop body can emit (produce / poll / flush only). -/
def isLoopEvent : PEvent → Bool
  | .produce _ _ _ _ => true
  | .poll _ => true
  | .flush _ => true
  | _ => false

/-- The loop state after the first `k` rows of a run starting from the
initial state (`total = 0`, `batch_counter = 0`). -/
def streamStateAt (topic : String) (batchSize : Int) (kf : Option String)
    (bufFull : Nat → Bool) (rows : List Row) (k : Nat) : StreamState :=
  (streamLoop topic batchSize kf bufFull ⟨0, 0⟩ (rows.take k)).2

/-! ## Batch-API variant: `produce_send_rows.py` -/

/-- One externally visible action of `produce_send_rows.py`.
`createBatch none` is `producer.create_batch()` with the default size;
`createBatch (some n)` is `producer.create_batch(max_size_in_bytes=n)`. -/
inductive BEvent where
  | createBatch (maxSizeBytes : Option Nat)
  | addEvent (payload : String)
  | sendBatch
  | errorLine (msg : String)
  | info (msg : String)
  | sleep (seconds : Nat)
  | close
deriving DecidableEq, Repr

/-- The broker-side outcomes relevant to one `send_payload` call:
whether `create_batch` succeeds, whether `batch.add` raises `ValueError`
(the payload does not fit), whether `send_batch` succeeds, and the same for
the retried 4 MB batch. -/
structure SendEnv where
  createOk : Bool
  fitsDefault : Bool
  sendOk : Bool
  createLargeOk : Bool
  fitsLarge : Bool
  sendLargeOk : Bool
deriving DecidableEq, Repr

/-- Result of `send_payload`: returned `True`, returned `False`, or raised
`RuntimeError` (only from the initial `create_batch` failure, lines 14–17). -/
inductive SendResult where
  | ok
  | failed
  | raisedRuntime
deriving DecidableEq, Repr

/-- `send_payload` (lines 10–39): create a default batch and add the event;
on `ValueError` retry once with a 4 MB batch; any other failure prints an
error line and returns `False`. -/
def send_payload (env : SendEnv) (payload : String) : List BEvent × SendResult :=
  if !env.createOk then
    ([BEvent.createBatch none], SendResult.raisedRuntime)
  else
    let pre := [BEvent.createBatch none, BEvent.addEvent payload]
    if env.fitsDefault then
      if env.sendOk then (pre ++ [BEvent.sendBatch], SendResult.ok)
      else (pre ++ [BEvent.sendBatch, BEvent.errorLine "Failed sending batch"],
            SendResult.failed)
    else
      if !env.createLargeOk then
        (pre ++ [BEvent.createBatch (some (1024 * 1024 * 4)),
                 BEvent.errorLine "Single event too large to send or other error"],
         SendResult.failed)
      else if !env.fitsLarge then
        (pre ++ [BEvent.createBatch (some (1024 * 1024 * 4)), BEvent.addEvent payload,
                 BEvent.errorLine "Single event too large to send or other error"],
         SendResult.failed)
      else if env.sendLargeOk then
        (pre ++ [BEvent.createBatch (some (1024 * 1024 * 4)), BEvent.addEvent payload,
                 BEvent.sendBatch],
         SendResult.ok)
      else
        (pre ++ [BEvent.createBatch (some (1024 * 1024 * 4)), BEvent.addEvent payload,
                 BEvent.sendBatch,
                 BEvent.errorLine "Single event too large to send or other error"],
         SendResult.failed)

/-- The payload sent for a row: `row["produced_at"] = int(time.time())`
followed by `json.dumps(row, ensure_ascii=False)` (lines 76–77). -/
def batchPayload (row : Row) (ts : Nat) : String :=
  jsonDumpObj (jobjSet (row.map (fun p => (p.1, JVal.jstr p.2))) "produced_at"
    (JVal.jnum ts))

/-- How one run of `produce_send_rows.main` ended.  `outOfFuel` marks a run
still going when the model's step budget ran out (loop mode never stops on
its own). -/
inductive BOutcome where
  | exitedNormal
  | raisedStop
  | raisedRuntime
  | sysExit
  | outOfFuel
deriving DecidableEq, Repr

/-- Process exit status for each outcome (`none` while still running).
An uncaught `StopIteration`/`RuntimeError` and a `SystemExit` with a message
all terminate CPython with status 1. -/
def bExitCode : BOutcome → Option Nat
  | .exitedNormal => some 0
  | .raisedStop => some 1
  | .raisedRuntime => some 1
  | .sysExit => some 1
  | .outOfFuel => none

/-- The body of one iteration of the `while True` loop once a row is in
hand (lines 76–85): timestamp, serialize, `send_payload`, outcome print,
interval sleep.  Returns the events plus `some o` when `send_payload`
raised and the loop is being exited with outcome `o`. -/
def bRowStep (ehName : String) (interval : Nat) (env : SendEnv) (ts : Nat)
    (r : Row) : List BEvent × Option BOutcome :=
  let payload := batchPayload r ts
  let s := send_payload env payload
  match s.2 with
  | SendResult.raisedRuntime => (s.1, some BOutcome.raisedRuntime)
  | SendResult.ok =>
    (s.1 ++ [BEvent.info ("Sent row -> EventHub=" ++ ehName), BEvent.sleep interval],
     none)
  | SendResult.failed =>
    (s.1 ++ [BEvent.info "Failed to send row; continuing.", BEvent.sleep interval],
     none)

/-- The `while True` loop of `main` (lines 64–85).  `rows` is the full CSV
content (what a fresh `csv_row_generator` yields); `remaining` is what the
current generator still holds.  On exhaustion with `--loop`, a fresh
generator is made and `next` is called again inside the `except
StopIteration` handler — on an empty CSV that second `StopIteration`
escapes uncaught (`raisedStop`).  `envs i` / `now i` give the broker
environment and `int(time.time())` for the `i`-th processed row. -/
def bLoop (rows : List Row) (ehName : String) (interval : Nat)
    (loopFlag : Bool) (envs : Nat → SendEnv) (now : Nat → Nat) :
    Nat → List Row → Nat → List BEvent × BOutcome
  | 0, _, _ => ([], BOutcome.outOfFuel)
  | fuel + 1, remaining, i =>
    match remaining with
    | [] =>
      if loopFlag then
        match rows with
        | [] => ([], BOutcome.raisedStop)
        | r :: rs =>
          let p := bRowStep ehName interval (envs i) (now i) r
          match p.2 with
          | some o => (p.1, o)
          | none =>
            let q := bLoop rows ehName interval loopFlag envs now fuel rs (i + 1)
            (p.1 ++ q.1, q.2)
      else ([BEvent.info "All rows sent; exiting."], BOutcome.exitedNormal)
    | r :: rs =>
      let p := bRowStep ehName interval (envs i) (now i) r
      match p.2 with
      | some o => (p.1, o)
      | none =>
        let q := bLoop rows ehName interval loopFlag envs now fuel rs (i + 1)
        (p.1 ++ q.1, q.2)

/-- Outcome of one run of `produce_send_rows.main`. -/
structure BRun where
  events : List BEvent
  outcome : BOutcome
  producerCreated : Bool
deriving DecidableEq, Repr

/-- `main` (lines 47–90): resolve `--eh_conn` against the `EVENTHUB_CONN`
environment variable (`SystemExit` when both are absent or empty, before the
producer exists), create the producer, run the loop, and close the producer
in the `finally` block on every exit path (`close` is skipped only while the
run is still in progress, i.e. on `outOfFuel`). -/
def bMain (ehConnFlag envConn : Option String) (ehName : String)
    (interval : Nat) (loopFlag : Bool) (rows : List Row)
    (envs : Nat → SendEnv) (now : Nat → Nat) (fuel : Nat) : BRun :=
  let connStr := pyOr ehConnFlag envConn
  if !optTruthy connStr then ⟨[], BOutcome.sysExit, false⟩
  else
    let p := bLoop rows ehName interval loopFlag envs now fuel rows 0
    if p.2 = BOutcome.outOfFuel then ⟨p.1, p.2, true⟩
    else ⟨p.1 ++ [BEvent.close], p.2, true⟩

/-- Number of `send_payload` calls in a batch-variant trace: each call
starts with exactly one default-size `create_batch`. -/
def defaultCreateCount (evs : List BEvent) : Nat :=
  (evs.filter (fun e => match e with
    | BEvent.createBatch none => true
    | _ => false)).length

/-- Number of enlarged (4 MB) batch allocations requested in a trace. -/
def largeCreateCount (evs : List BEvent) : Nat :=
  (evs.filter (fun e => match e with
    | BEvent.createBatch (some _) => true
    | _ => false)).length

/-! ## Helper lemmas: protocol-client variant -/

theorem produceOkValues_append (a b : List PEvent) :
    produceOkValues (a ++ b) = produceOkValues a ++ produceOkValues b := by
  simp [produceOkValues]

theorem produceOkKeys_append (a b : List PEvent) :
    produceOkKeys (a ++ b) = produceOkKeys a ++ produceOkKeys b := by
  simp [produceOkKeys]

theorem streamStep_okValues (topic : String) (B : Int) (kf : Option String)
    (st : StreamState) (r : Row) (b : Bool) :
    produceOkValues (streamStep topic B kf st r b).1 = [jsonDumpsRow r] := by
  cases b <;>
    simp [streamStep, rowProduceEvents, produceOkValues] <;> split <;> simp

theorem streamStep_okKeys (topic : String) (B : Int) (kf : Option String)
    (st : StreamState) (r : Row) (b : Bool) :
    produceOkKeys (streamStep topic B kf st r b).1 = [keyBytesOf kf r] := by
  cases b <;>
    simp [streamStep, rowProduceEvents, produceOkKeys] <;> split <;> simp

theorem streamStep_total (topic : String) (B : Int) (kf : Option String)
    (st : StreamState) (r : Row) (b : Bool) :
    (streamStep topic B kf st r b).2.total = st.total + 1 := by
  simp only [streamStep]
  split <;> rfl

theorem streamLoop_okValues (topic : String) (B : Int) (kf : Option String)
    (bufFull : Nat → Bool) :
    ∀ (rows : List Row) (st : StreamState),
      produceOkValues (streamLoop topic B kf bufFull st rows).1
        = rows.map jsonDumpsRow := by
  intro rows
  induction rows with
  | nil => intro st; simp [streamLoop, produceOkValues]
  | cons r rs ih =>
    intro st
    simp [streamLoop, produceOkValues_append, streamStep_okValues, ih]

theorem streamLoop_okKeys (topic : String) (B : Int) (kf : Option String)
    (bufFull : Nat → Bool) :
    ∀ (rows : List Row) (st : StreamState),
      produceOkKeys (streamLoop topic B kf bufFull st rows).1
        = rows.map (keyBytesOf kf) := by
  intro rows
  induction rows with
  | nil => intro st; simp [streamLoop, produceOkKeys]
  | cons r rs ih =>
    intro st
    simp [streamLoop, produceOkKeys_append, streamStep_okKeys, ih]

theorem streamLoop_total (topic : String) (B : Int) (kf : Option String)
    (bufFull : Nat → Bool) :
    ∀ (rows : List Row) (st : StreamState),
      (streamLoop topic B kf bufFull st rows).2.total = st.total + rows.length := by
  intro rows
  induction rows with
  | nil => intro st; simp [streamLoop]
  | cons r rs ih =>
    intro st
    simp [streamLoop, ih, streamStep_total]
    omega

theorem streamLoop_append (topic : String) (B : Int) (kf : Option String)
    (bufFull : Nat → Bool) :
    ∀ (xs ys : List Row) (st : StreamState),
      streamLoop topic B kf bufFull st (xs ++ ys)
        = ((streamLoop topic B kf bufFull st xs).1 ++
             (streamLoop topic B kf bufFull
               (streamLoop topic B kf bufFull st xs).2 ys).1,
           (streamLoop topic B kf bufFull
             (streamLoop topic B kf bufFull st xs).2 ys).2) := by
  intro xs
  induction xs with
  | nil => intro ys st; simp [streamLoop]
  | cons x xs ih =>
    intro ys st
    simp [streamLoop, ih]

theorem rowProduceEvents_loopEvent (topic : String) (kf : Option String)
    (r : Row) (b : Bool) :
    ∀ e ∈ rowProduceEvents topic kf r b, isLoopEvent e = true := by
  cases b <;> simp [rowProduceEvents, isLoopEvent]

theorem streamStep_events_loopEvent (topic : String) (B : Int)
    (kf : Option String) (st : StreamState) (r : Row) (b : Bool) :
    ∀ e ∈ (streamStep topic B kf st r b).1, isLoopEvent e = true := by
  intro e he
  simp only [streamStep] at he
  split at he
  · rcases List.mem_append.mp he with h | h
    · exact rowProduceEvents_loopEvent _ _ _ _ _ h
    · simp only [List.mem_singleton] at h
      subst h; rfl
  · exact rowProduceEvents_loopEvent _ _ _ _ _ he

theorem streamLoop_events_loopEvent (topic : String) (B : Int)
    (kf : Option String) (bufFull : Nat → Bool) :
    ∀ (rows : List Row) (st : StreamState) (e : PEvent),
      e ∈ (streamLoop topic B kf bufFull st rows).1 → isLoopEvent e = true := by
  intro rows
  induction rows with
  | nil => intro st e h; simp [streamLoop] at h
  | cons r rs ih =>
    intro st e h
    simp only [streamLoop, List.mem_append] at h
    rcases h with h | h
    · exact streamStep_events_loopEvent _ _ _ _ _ _ _ h
    · exact ih _ _ h

theorem close_not_mem_streamLoop (topic : String) (B : Int)
    (kf : Option String) (bufFull : Nat → Bool) (rows : List Row)
    (st : StreamState) :
    PEvent.close ∉ (streamLoop topic B kf bufFull st rows).1 := by
  intro h
  have := streamLoop_events_loopEvent topic B kf bufFull rows st _ h
  simp [isLoopEvent] at this

theorem report_not_mem_streamLoop (topic : String) (B : Int)
    (kf : Option String) (bufFull : Nat → Bool) (rows : List Row)
    (st : StreamState) (t d f : Nat) :
    PEvent.report t d f ∉ (streamLoop topic B kf bufFull st rows).1 := by
  intro h
  have := streamLoop_events_loopEvent topic B kf bufFull rows st _ h
  simp [isLoopEvent] at this

theorem warnCount_streamLoop (topic : String) (B : Int)
    (kf : Option String) (bufFull : Nat → Bool) (rows : List Row)
    (st : StreamState) :
    warnCount (streamLoop topic B kf bufFull st rows).1 = 0 := by
  simp only [warnCount, List.length_eq_zero, List.filter_eq_nil_iff]
  intro e he
  have := streamLoop_events_loopEvent topic B kf bufFull rows st e he
  cases e <;> simp_all [isLoopEvent]

/-! ## Helper lemmas: batch-API variant -/

theorem defaultCreateCount_append (a b : List BEvent) :
    defaultCreateCount (a ++ b) = defaultCreateCount a + defaultCreateCount b := by
  simp [defaultCreateCount]

theorem send_payload_of_createOk (env : SendEnv) (payload : String)
    (h : env.createOk = true) :
    (send_payload env payload).2 ≠ SendResult.raisedRuntime ∧
    defaultCreateCount (send_payload env payload).1 = 1 := by
  obtain ⟨c, fd, so, clo, fl, slo⟩ := env
  cases c
  · simp at h
  · cases fd <;> cases so <;> cases clo <;> cases fl <;> cases slo <;>
      simp [send_payload, defaultCreateCount]

theorem bRowStep_of_createOk (ehName : String) (interval : Nat) (env : SendEnv)
    (ts : Nat) (r : Row) (h : env.createOk = true) :
    (bRowStep ehName interval env ts r).2 = none ∧
    defaultCreateCount (bRowStep ehName interval env ts r).1 = 1 := by
  have hs := send_payload_of_createOk env (batchPayload r ts) h
  simp only [bRowStep]
  rcases hres : (send_payload env (batchPayload r ts)).2 with _ | _ | _
  · simp only [hres]
    refine ⟨trivial, ?_⟩
    rw [defaultCreateCount_append, hs.2]
    rfl
  · simp only [hres]
    refine ⟨trivial, ?_⟩
    rw [defaultCreateCount_append, hs.2]
    rfl
  · exact absurd hres hs.1

theorem bLoop_nonloop (rows : List Row) (ehName : String) (interval : Nat)
    (envs : Nat → SendEnv) (now : Nat → Nat)
    (henv : ∀ i, (envs i).createOk = true) :
    ∀ (remaining : List Row) (i fuel : Nat), remaining.length < fuel →
      defaultCreateCount
          (bLoop rows ehName interval false envs now fuel remaining i).1
        = remaining.length ∧
      (bLoop rows ehName interval false envs now fuel remaining i).2
        = BOutcome.exitedNormal := by
  intro remaining
  induction remaining with
  | nil =>
    intro i fuel hf
    match fuel, hf with
    | fuel + 1, _ => simp [bLoop, defaultCreateCount]
  | cons r rs ih =>
    intro i fuel hf
    match fuel, hf with
    | fuel + 1, hf =>
      have hstep := bRowStep_of_createOk ehName interval (envs i) (now i) r (henv i)
      have hrec := ih (i + 1) fuel (by simpa using Nat.lt_of_succ_lt_succ hf)
      simp only [bLoop, hstep.1]
      constructor
      · rw [defaultCreateCount_append, hstep.2, hrec.1]
        simp [List.length_cons, Nat.add_comm]
      · exact hrec.2

theorem streamLoop_counter_inv (topic : String) (B : Int) (kf : Option String)
    (bufFull : Nat → Bool) (hB : 1 ≤ B) :
    ∀ (rows : List Row) (st : StreamState),
      (st.batchCounter : Int) + 1 ≤ B →
      ((streamLoop topic B kf bufFull st rows).2.batchCounter : Int) + 1 ≤ B := by
  intro rows
  induction rows with
  | nil => intro st h; simpa [streamLoop] using h
  | cons r rs ih =>
    intro st h
    simp only [streamLoop]
    apply ih
    simp only [streamStep]
    split
    · simpa using hB
    · rename_i hlt
      push_cast at hlt ⊢
      omega

theorem streamStateAt_succ (topic : String) (B : Int) (kf : Option String)
    (bufFull : Nat → Bool) (rows : List Row) (k : Nat) (hk : k < rows.length) :
    streamStateAt topic B kf bufFull rows (k + 1)
      = (streamStep topic B kf (streamStateAt topic B kf bufFull rows k) rows[k]
          (bufFull (streamStateAt topic B kf bufFull rows k).total)).2 := by
  unfold streamStateAt
  rw [List.take_succ, List.getElem?_eq_getElem hk]
  rw [streamLoop_append]
  simp [streamLoop]

/-! ## Claims -/

/-- **C1.** In the protocol-client variant, after each enqueue the count of
messages enqueued since the last flush (`batch_counter`) is incremented, and
for every run with configured batch size `B ≥ 1`, whenever that counter
reaches `B` a blocking `flush(30)` is performed before any further enqueue
proceeds and the counter is reset to `0`; hence the counter never exceeds
`B` at any point between flushes.  Formally: at every point of the run the
stored counter plus the one in-iteration increment stays `≤ B` (so the
counter itself stays `< B` at iteration boundaries and peaks at exactly `B`
inside an iteration), and an iteration whose increment reaches `B` ends
with `flush(30)` as its last action and leaves the counter at `0`. -/
theorem batchCounter_bounded_by_batchSize
    (topic : String) (B : Int) (kf : Option String) (bufFull : Nat → Bool)
    (rows : List Row) (k : Nat) (hB : 1 ≤ B) :
    ((streamStateAt topic B kf bufFull rows k).batchCounter : Int) + 1 ≤ B ∧
    (∀ hk : k < rows.length,
      ((streamStateAt topic B kf bufFull rows k).batchCounter : Int) + 1 = B →
        (streamStateAt topic B kf bufFull rows (k + 1)).batchCounter = 0 ∧
        (streamStep topic B kf (streamStateAt topic B kf bufFull rows k) rows[k]
            (bufFull (streamStateAt topic B kf bufFull rows k).total)).1.getLast?
          = some (PEvent.flush 30)) := by
  constructor
  · exact streamLoop_counter_inv topic B kf bufFull hB (rows.take k) ⟨0, 0⟩
      (by simpa using hB)
  · intro hk hreach
    have hcond :
        B ≤ ((streamStateAt topic B kf bufFull rows k).batchCounter : Int) + 1 := by
      omega
    constructor
    · rw [streamStateAt_succ topic B kf bufFull rows k hk]
      simp [streamStep, hcond]
    · simp [streamStep, hcond, List.getLast?_concat]

/-- Witness for C1: batch size 2, three rows, checked after the second row. -/
theorem batchCounter_bounded_by_batchSize_witness :
    (1 : Int) ≤ 2 ∧
    (((streamStateAt "t" 2 none (fun _ => false)
        [[("a", "1")], [("a", "2")], [("a", "3")]] 1).batchCounter : Int) + 1 ≤ 2 ∧
     (∀ hk : 1 < ([[("a", "1")], [("a", "2")], [("a", "3")]] : List Row).length,
       ((streamStateAt "t" 2 none (fun _ => false)
           [[("a", "1")], [("a", "2")], [("a", "3")]] 1).batchCounter : Int) + 1 = 2 →
         (streamStateAt "t" 2 none (fun _ => false)
             [[("a", "1")], [("a", "2")], [("a", "3")]] 2).batchCounter = 0 ∧
         (streamStep "t" 2 none
             (streamStateAt "t" 2 none (fun _ => false)
               [[("a", "1")], [("a", "2")], [("a", "3")]] 1)
             ([[("a", "1")], [("a", "2")], [("a", "3")]] : List Row)[1]
             ((fun _ => false) (streamStateAt "t" 2 none (fun _ => false)
                 [[("a", "1")], [("a", "2")], [("a", "3")]] 1).total)).1.getLast?
           = some (PEvent.flush 30))) :=
  ⟨by norm_num,
   batchCounter_bounded_by_batchSize "t" 2 none (fun _ => false)
     [[("a", "1")], [("a", "2")], [("a", "3")]] 1 (by norm_num)⟩

theorem produceOkValues_streamHeader (keyField : Option String)
    (fieldnames : List String) :
    produceOkValues (streamHeader keyField fieldnames) = [] := by
  rw [streamHeader, produceOkValues_append]
  split <;> simp [produceOkValues]

theorem produceOkKeys_streamHeader (keyField : Option String)
    (fieldnames : List String) :
    produceOkKeys (streamHeader keyField fieldnames) = [] := by
  rw [streamHeader, produceOkKeys_append]
  split <;> simp [produceOkKeys]

/-- **C2.** For every input CSV with `N` data rows, a non-loop run enqueues
exactly `N` messages — one successful produce/send per row, in file order —
and the reported total-enqueued count equals `N`.  Protocol-client variant:
the successful enqueues of `stream_csv` are exactly the JSON payloads of the
rows in order, the returned `total` is `N`, and the final report carries
`N`.  Batch-API variant: with the loop flag off and a broker that accepts
batch creation, `main` calls `send_payload` exactly once per row (counted by
its default-size `create_batch`) and exits normally. -/
theorem nonloop_enqueues_row_count
    (topic : String) (B : Int) (keyField : Option String)
    (fieldnames : List String) (rows : List Row) (bufFull : Nat → Bool)
    (delivered failed : Nat) (ehConnFlag envConn : Option String)
    (ehName : String) (interval : Nat) (envs : Nat → SendEnv)
    (now : Nat → Nat) (fuel : Nat)
    (hconn : optTruthy (pyOr ehConnFlag envConn) = true)
    (henv : ∀ i, (envs i).createOk = true) (hfuel : rows.length < fuel) :
    produceOkValues
        (stream_csv topic B keyField fieldnames rows bufFull delivered failed).1
      = rows.map jsonDumpsRow ∧
    (stream_csv topic B keyField fieldnames rows bufFull delivered failed).2
      = rows.length ∧
    PEvent.report rows.length delivered failed
      ∈ (stream_csv topic B keyField fieldnames rows bufFull delivered failed).1 ∧
    defaultCreateCount
        (bMain ehConnFlag envConn ehName interval false rows envs now fuel).events
      = rows.length ∧
    (bMain ehConnFlag envConn ehName interval false rows envs now fuel).outcome
      = BOutcome.exitedNormal := by
  have hb := bLoop_nonloop rows ehName interval envs now henv rows 0 fuel hfuel
  refine ⟨?_, ?_, ?_, ?_, ?_⟩
  · simp only [stream_csv, produceOkValues_append, produceOkValues_streamHeader,
      streamLoop_okValues]
    simp [produceOkValues]
  · simp [stream_csv, streamLoop_total]
  · simp [stream_csv, List.mem_append, streamLoop_total]
  · simp only [bMain, hconn, Bool.not_true, Bool.false_eq_true, if_false]
    rw [if_neg (by simp [hb.2])]
    rw [defaultCreateCount_append, hb.1]
    simp [defaultCreateCount]
  · simp [bMain, hconn, hb.2]

/-- Witness for C2: two rows, benign broker, fuel 3. -/
theorem nonloop_enqueues_row_count_witness :
    optTruthy (pyOr none (some "c")) = true ∧
    (∀ i : Nat, ((fun _ => SendEnv.mk true true true true true true) i).createOk
      = true) ∧
    ([[("a", "1")], [("a", "2")]] : List Row).length < 3 ∧
    (produceOkValues
        (stream_csv "t" 1 none ["a"] [[("a", "1")], [("a", "2")]]
          (fun _ => false) 0 0).1
      = ([[("a", "1")], [("a", "2")]] : List Row).map jsonDumpsRow ∧
    (stream_csv "t" 1 none ["a"] [[("a", "1")], [("a", "2")]]
        (fun _ => false) 0 0).2
      = ([[("a", "1")], [("a", "2")]] : List Row).length ∧
    PEvent.report ([[("a", "1")], [("a", "2")]] : List Row).length 0 0
      ∈ (stream_csv "t" 1 none ["a"] [[("a", "1")], [("a", "2")]]
          (fun _ => false) 0 0).1 ∧
    defaultCreateCount
        (bMain none (some "c") "eh" 0 false [[("a", "1")], [("a", "2")]]
          (fun _ => SendEnv.mk true true true true true true)
          (fun _ => 0) 3).events
      = ([[("a", "1")], [("a", "2")]] : List Row).length ∧
    (bMain none (some "c") "eh" 0 false [[("a", "1")], [("a", "2")]]
        (fun _ => SendEnv.mk true true true true true true)
        (fun _ => 0) 3).outcome
      = BOutcome.exitedNormal) :=
  ⟨by decide, fun _ => rfl, by decide,
   nonloop_enqueues_row_count "t" 1 none ["a"] [[("a", "1")], [("a", "2")]]
     (fun _ => false) 0 0 none (some "c") "eh" 0
     (fun _ => SendEnv.mk true true true true true true) (fun _ => 0) 3
     (by decide) (fun _ => rfl) (by decide)⟩

/-- **C3.** In the batch-API variant, for every payload: if adding it to a
freshly created default-size batch fails because it does not fit
(`ValueError`), `send_payload` retries exactly once with a larger (4 MB)
batch allocation; if the payload fits the larger batch and the send succeeds
the function reports success (`True`), and if it still does not fit or the
send fails it reports failure (`False`) for that message without raising, so
a single oversized message never aborts the stream. -/
theorem oversize_payload_retry_once (env : SendEnv) (payload : String)
    (hc : env.createOk = true) (hf : env.fitsDefault = false) :
    largeCreateCount (send_payload env payload).1 = 1 ∧
    BEvent.createBatch (some (1024 * 1024 * 4)) ∈ (send_payload env payload).1 ∧
    (env.createLargeOk = true → env.fitsLarge = true → env.sendLargeOk = true →
      (send_payload env payload).2 = SendResult.ok) ∧
    ((env.createLargeOk = false ∨ env.fitsLarge = false ∨ env.sendLargeOk = false) →
      (send_payload env payload).2 = SendResult.failed) ∧
    (send_payload env payload).2 ≠ SendResult.raisedRuntime := by
  obtain ⟨c, fd, so, clo, fl, slo⟩ := env
  simp only at hc hf
  subst hc hf
  cases clo <;> cases fl <;> cases slo <;> cases so <;>
    simp [send_payload, largeCreateCount]

/-- Witness for C3: payload that misses the default batch but fits the 4 MB
batch, whose send succeeds. -/
theorem oversize_payload_retry_once_witness :
    (SendEnv.mk true false true true true true).createOk = true ∧
    (SendEnv.mk true false true true true true).fitsDefault = false ∧
    (largeCreateCount
        (send_payload (SendEnv.mk true false true true true true) "p").1 = 1 ∧
    BEvent.createBatch (some (1024 * 1024 * 4))
      ∈ (send_payload (SendEnv.mk true false true true true true) "p").1 ∧
    ((SendEnv.mk true false true true true true).createLargeOk = true →
      (SendEnv.mk true false true true true true).fitsLarge = true →
      (SendEnv.mk true false true true true true).sendLargeOk = true →
      (send_payload (SendEnv.mk true false true true true true) "p").2
        = SendResult.ok) ∧
    ((SendEnv.mk true false true true true true).createLargeOk = false ∨
      (SendEnv.mk true false true true true true).fitsLarge = false ∨
      (SendEnv.mk true false true true true true).sendLargeOk = false →
      (send_payload (SendEnv.mk true false true true true true) "p").2
        = SendResult.failed) ∧
    (send_payload (SendEnv.mk true false true true true true) "p").2
      ≠ SendResult.raisedRuntime) :=
  ⟨rfl, rfl,
   oversize_payload_retry_once (SendEnv.mk true false true true true true) "p"
     rfl rfl⟩

theorem streamStep_bufferFull (topic : String) (B : Int) (kf : Option String)
    (st : StreamState) (r : Row) :
    ∃ tail, (streamStep topic B kf st r true).1 =
      [PEvent.produce topic (jsonDumpsRow r) (keyBytesOf kf r) false,
       PEvent.poll 1, PEvent.flush 5,
       PEvent.produce topic (jsonDumpsRow r) (keyBytesOf kf r) true] ++ tail := by
  simp only [streamStep, rowProduceEvents]
  split
  · exact ⟨[PEvent.poll 0, PEvent.flush 30], rfl⟩
  · exact ⟨[PEvent.poll 0], rfl⟩

/-- **C4.** In the protocol-client variant, for every message whose enqueue
is rejected with a buffer-full error (`BufferError`), the publisher first
services pending delivery callbacks (`poll(1)`), then performs a bounded
flush (`flush(5)`), and then retries the enqueue of that same message
exactly once: the run's trace around that row is precisely
rejected-produce, poll, flush, accepted-produce of the identical
payload and key. -/
theorem bufferError_poll_flush_retry_once
    (topic : String) (B : Int) (kf : Option String) (bufFull : Nat → Bool)
    (rows : List Row) (k : Nat) (hk : k < rows.length) (hbf : bufFull k = true) :
    ∃ pre post,
      (streamLoop topic B kf bufFull ⟨0, 0⟩ rows).1 =
        pre ++
        [PEvent.produce topic (jsonDumpsRow rows[k]) (keyBytesOf kf rows[k]) false,
         PEvent.poll 1, PEvent.flush 5,
         PEvent.produce topic (jsonDumpsRow rows[k]) (keyBytesOf kf rows[k]) true]
        ++ post := by
  have hdecomp : rows = rows.take k ++ rows[k] :: rows.drop (k + 1) := by
    rw [List.getElem_cons_drop rows k hk, List.take_append_drop]
  have htot : (streamLoop topic B kf bufFull ⟨0, 0⟩ (rows.take k)).2.total = k := by
    rw [streamLoop_total]
    simp [List.length_take, Nat.min_eq_left (Nat.le_of_lt hk)]
  obtain ⟨tail, htail⟩ := streamStep_bufferFull topic B kf
    (streamLoop topic B kf bufFull ⟨0, 0⟩ (rows.take k)).2 rows[k]
  refine ⟨(streamLoop topic B kf bufFull ⟨0, 0⟩ (rows.take k)).1,
    tail ++ (streamLoop topic B kf bufFull
      (streamStep topic B kf (streamLoop topic B kf bufFull ⟨0, 0⟩ (rows.take k)).2
        rows[k] true).2 (rows.drop (k + 1))).1, ?_⟩
  conv_lhs => rw [hdecomp]
  rw [streamLoop_append]
  simp only [streamLoop]
  rw [htot, hbf, htail]
  simp [List.append_assoc]

/-- Witness for C4: single row whose first enqueue hits `BufferError`. -/
theorem bufferError_poll_flush_retry_once_witness :
    0 < ([[("a", "1")]] : List Row).length ∧
    (fun _ : Nat => true) 0 = true ∧
    (∃ pre post,
      (streamLoop "t" 1000 none (fun _ => true) ⟨0, 0⟩ [[("a", "1")]]).1 =
        pre ++
        [PEvent.produce "t" (jsonDumpsRow ([[("a", "1")]] : List Row)[0])
           (keyBytesOf none ([[("a", "1")]] : List Row)[0]) false,
         PEvent.poll 1, PEvent.flush 5,
         PEvent.produce "t" (jsonDumpsRow ([[("a", "1")]] : List Row)[0])
           (keyBytesOf none ([[("a", "1")]] : List Row)[0]) true]
        ++ post) :=
  ⟨by decide, rfl,
   bufferError_poll_flush_retry_once "t" 1000 none (fun _ => true)
     [[("a", "1")]] 0 (by decide) rfl⟩

/-- **C5 counterexample.** The claim says the key is absent (None) exactly
when no key field is configured or the field is missing from the record.
Here the key field `"a"` is configured, is among the columns, and is present
in the record with (string) value `""` — yet the produced key is `none`, not
`some (utf8Bytes "")`, because the code tests the key string for Python
truthiness before encoding (`key.encode("utf-8") if key else None`). -/
theorem key_empty_value_counterexample :
    produceOkKeys (stream_csv "t" 1 (some "a") ["a"] [[("a", "")]]
        (fun _ => false) 0 0).1 = [none] ∧
    optTruthy (some "a") = true ∧
    "a" ∈ ["a"] ∧
    rowLookup [("a", "")] "a" = some "" ∧
    (none : Option (List Nat)) ≠ some (utf8Bytes "") := by
  exact ⟨by decide, by decide, by decide, by decide, by decide⟩

/-- **C5 (amended).** For every record and configured key-field name that is
among the CSV columns, the message key is the UTF-8 encoding of the string
value of that field when that value is non-empty; the key is absent (None)
when no key field is configured, when the field is missing from the record
(the lookup default `""` applies), or when the field's value is the empty
string.  In particular, for rows `[("a","1")]`, `[("a","2")]` with key field
`"a"` the produced keys are the UTF-8 bytes of `"1"` and `"2"`. -/
theorem message_key_utf8_amended
    (topic : String) (B : Int) (fieldnames : List String) (rows : List Row)
    (bufFull : Nat → Bool) (delivered failed : Nat) (kf : String)
    (hk : kf ≠ "") (hmem : kf ∈ fieldnames) :
    produceOkKeys (stream_csv topic B (some kf) fieldnames rows bufFull
        delivered failed).1
      = rows.map (fun r =>
          if rowGetD r kf "" = "" then none
          else some (utf8Bytes (rowGetD r kf ""))) ∧
    produceOkKeys (stream_csv topic B none fieldnames rows bufFull
        delivered failed).1
      = rows.map (fun _ => none) := by
  have heff : effKeyField (some kf) fieldnames = some kf := by
    simp [effKeyField, keyFieldMissing, optTruthy, hmem]
  have hfun : keyBytesOf (some kf) = fun r : Row =>
      if rowGetD r kf "" = "" then none
      else some (utf8Bytes (rowGetD r kf "")) := by
    funext r
    simp [keyBytesOf, keyStrOf, optTruthy, hk]
  constructor
  · simp only [stream_csv, produceOkKeys_append, produceOkKeys_streamHeader,
      heff, streamLoop_okKeys, hfun]
    simp [produceOkKeys]
  · have heffn : effKeyField none fieldnames = none := by
      simp [effKeyField, keyFieldMissing, optTruthy]
    have hfunn : keyBytesOf none = fun _ : Row => (none : Option (List Nat)) := by
      funext r
      simp [keyBytesOf, keyStrOf, optTruthy]
    simp only [stream_csv, produceOkKeys_append, produceOkKeys_streamHeader,
      heffn, streamLoop_okKeys, hfunn]
    simp [produceOkKeys]

/-- Witness for C5 (amended): the spec's scenario — two rows keyed on `"a"`,
keys are the UTF-8 bytes of `"1"` and `"2"`. -/
theorem message_key_utf8_amended_witness :
    ("a" : String) ≠ "" ∧ "a" ∈ ["a"] ∧
    (produceOkKeys (stream_csv "t" 1 (some "a") ["a"]
        [[("a", "1")], [("a", "2")]] (fun _ => false) 0 0).1
      = ([[("a", "1")], [("a", "2")]] : List Row).map (fun r =>
          if rowGetD r "a" "" = "" then none
          else some (utf8Bytes (rowGetD r "a" ""))) ∧
    produceOkKeys (stream_csv "t" 1 none ["a"]
        [[("a", "1")], [("a", "2")]] (fun _ => false) 0 0).1
      = ([[("a", "1")], [("a", "2")]] : List Row).map (fun _ => none)) ∧
    produceOkKeys (stream_csv "t" 1 (some "a") ["a"]
        [[("a", "1")], [("a", "2")]] (fun _ => false) 0 0).1
      = [some (utf8Bytes "1"), some (utf8Bytes "2")] :=
  ⟨by decide, by decide,
   message_key_utf8_amended "t" 1 ["a"] [[("a", "1")], [("a", "2")]]
     (fun _ => false) 0 0 "a" (by decide) (by decide),
   by decide⟩

theorem streamHeader_not_report (keyField : Option String)
    (fieldnames : List String) :
    ∀ e ∈ streamHeader keyField fieldnames, isReport e = false := by
  intro e he
  rw [streamHeader] at he
  rcases List.mem_append.mp he with h | h
  · split at h
    · simp only [List.mem_singleton] at h
      subst h; rfl
    · simp at h
  · simp only [List.mem_singleton] at h
    subst h; rfl

theorem loopEvent_not_report (e : PEvent) (h : isLoopEvent e = true) :
    isReport e = false := by
  cases e <;> simp_all [isLoopEvent, isReport]

/-- **C6 counterexample.** The claim says that on user interruption, after
the final flush the final totals (enqueued, delivered, failed) are
reported.  In this interrupted run the handler performs `flush(10)` and the
process exits, but no report event occurs anywhere in the trace:
`stream_csv`'s summary print is skipped because the exception aborts the
stream, and `main`'s interrupt handler prints no totals. -/
theorem interrupt_no_final_report_counterexample :
    PEvent.flush 10 ∈ (pMain (some "c") "t" 1000 none ["a"] [[("a", "1")]]
        (fun _ => false) 0 0 (some 0)).events ∧
    ((pMain (some "c") "t" 1000 none ["a"] [[("a", "1")]]
        (fun _ => false) 0 0 (some 0)).events.all (fun e => !isReport e)
      = true) ∧
    (pMain (some "c") "t" 1000 none ["a"] [[("a", "1")]]
        (fun _ => false) 0 0 (some 0)).exitZero = true := by
  exact ⟨by decide, by decide, by decide⟩

/-- **C6 (amended).** In the protocol-client variant, on normal end-of-input
a final `flush(60)` is performed and the final totals (enqueued, delivered,
failed) are reported immediately after it; on user interruption a final
`flush(10)` is performed before exit, but the final totals are **not**
reported (the interrupt handler only prints a notice and flushes). -/
theorem final_flush_then_report_amended
    (envConn : Option String) (topic : String) (B : Int)
    (keyField : Option String) (fieldnames : List String) (rows : List Row)
    (bufFull : Nat → Bool) (delivered failed : Nat)
    (hconn : optTruthy envConn = true) :
    (∃ pre,
      (pMain envConn topic B keyField fieldnames rows bufFull delivered failed
          none).events
        = pre ++ [PEvent.flush 60, PEvent.report rows.length delivered failed]) ∧
    (∀ k : Nat,
      PEvent.flush 10 ∈ (pMain envConn topic B keyField fieldnames rows bufFull
          delivered failed (some k)).events ∧
      ∀ e ∈ (pMain envConn topic B keyField fieldnames rows bufFull delivered
          failed (some k)).events, isReport e = false) := by
  have hmp : make_producer envConn = Except.ok () := by
    simp [make_producer, hconn]
  constructor
  · refine ⟨streamHeader keyField fieldnames ++
      (streamLoop topic B (effKeyField keyField fieldnames) bufFull
        ⟨0, 0⟩ rows).1 ++
      [PEvent.info "Finished enqueueing rows. Flushing remaining messages..."],
      ?_⟩
    simp only [pMain, hmp, stream_csv]
    rw [streamLoop_total]
    simp [List.append_assoc]
  · intro k
    constructor
    · simp [pMain, hmp]
    · intro e he
      simp only [pMain, hmp, List.mem_append] at he
      rcases he with (he | he) | he
      · exact streamHeader_not_report keyField fieldnames e he
      · exact loopEvent_not_report e
          (streamLoop_events_loopEvent topic B _ bufFull _ _ e he)
      · simp only [List.mem_cons, List.not_mem_nil, or_false] at he
        rcases he with he | he
        · subst he; rfl
        · subst he; rfl

/-- Witness for C6 (amended): one-row run with the secret present. -/
theorem final_flush_then_report_amended_witness :
    optTruthy (some "c") = true ∧
    ((∃ pre,
      (pMain (some "c") "t" 1000 none ["a"] [[("a", "1")]] (fun _ => false)
          0 0 none).events
        = pre ++ [PEvent.flush 60,
            PEvent.report ([[("a", "1")]] : List Row).length 0 0]) ∧
    (∀ k : Nat,
      PEvent.flush 10 ∈ (pMain (some "c") "t" 1000 none ["a"] [[("a", "1")]]
          (fun _ => false) 0 0 (some k)).events ∧
      ∀ e ∈ (pMain (some "c") "t" 1000 none ["a"] [[("a", "1")]]
          (fun _ => false) 0 0 (some k)).events, isReport e = false)) :=
  ⟨by decide,
   final_flush_then_report_amended (some "c") "t" 1000 none ["a"]
     [[("a", "1")]] (fun _ => false) 0 0 (by decide)⟩

theorem streamHeader_no_close (keyField : Option String)
    (fieldnames : List String) :
    PEvent.close ∉ streamHeader keyField fieldnames := by
  intro h
  rw [streamHeader] at h
  rcases List.mem_append.mp h with h | h
  · split at h <;> simp at h
  · simp at h

/-- **C7 counterexample.** The claim says both variants close the broker
connection on every exit path.  This normal, completed run of the
protocol-client variant (`produce_to_eventhub.main`) contains no close
action at all: the script never calls any close on the confluent producer
(it only flushes). -/
theorem protocol_never_closes_counterexample :
    PEvent.close ∉ (pMain (some "c") "t" 1000 none ["a"] [[("a", "1")]]
        (fun _ => false) 0 0 none).events ∧
    (pMain (some "c") "t" 1000 none ["a"] [[("a", "1")]]
        (fun _ => false) 0 0 none).exitZero = true := by
  exact ⟨by decide, by decide⟩

/-- **C7 (amended).** In the batch-API variant, for every run in which the
producer client was created, the connection is closed (in the `finally`
block) on every exit path — normal completion, the uncaught `StopIteration`
of loop-restart, and `send_payload`'s `RuntimeError` alike.  In the
protocol-client variant the producer is never closed on any path: no run of
`produce_to_eventhub.main` contains a close action. -/
theorem close_on_exit_amended
    (ehConnFlag envConn : Option String) (ehName : String) (interval : Nat)
    (loopFlag : Bool) (rows : List Row) (envs : Nat → SendEnv)
    (now : Nat → Nat) (fuel : Nat) (envConnP : Option String) (topic : String)
    (B : Int) (keyField : Option String) (fieldnames : List String)
    (rowsP : List Row) (bufFull : Nat → Bool) (delivered failed : Nat)
    (interruptAt : Option Nat) :
    ((bMain ehConnFlag envConn ehName interval loopFlag rows envs now
        fuel).producerCreated = true →
      (bMain ehConnFlag envConn ehName interval loopFlag rows envs now
        fuel).outcome ≠ BOutcome.outOfFuel →
      BEvent.close ∈ (bMain ehConnFlag envConn ehName interval loopFlag rows
        envs now fuel).events) ∧
    PEvent.close ∉ (pMain envConnP topic B keyField fieldnames rowsP bufFull
      delivered failed interruptAt).events := by
  constructor
  · intro hcreated hout
    cases htr : optTruthy (pyOr ehConnFlag envConn)
    · rw [bMain] at hcreated
      simp [htr] at hcreated
    · rw [bMain] at hout ⊢
      simp only [htr, Bool.not_true, Bool.false_eq_true, if_false] at hout ⊢
      by_cases hof :
          (bLoop rows ehName interval loopFlag envs now fuel rows 0).2
            = BOutcome.outOfFuel
      · simp [hof] at hout
      · simp [hof]
  · intro hmem
    cases hm : make_producer envConnP with
    | error e => simp only [pMain, hm] at hmem; simp at hmem
    | ok u =>
      simp only [pMain, hm] at hmem
      cases interruptAt with
      | none =>
        simp only [stream_csv, List.mem_append] at hmem
        rcases hmem with (h | h) | h
        · exact streamHeader_no_close keyField fieldnames h
        · exact close_not_mem_streamLoop topic B _ bufFull rowsP ⟨0, 0⟩ h
        · simp at h
      | some k =>
        simp only [List.mem_append] at hmem
        rcases hmem with (h | h) | h
        · exact streamHeader_no_close keyField fieldnames h
        · exact close_not_mem_streamLoop topic B _ bufFull (rowsP.take k) ⟨0, 0⟩ h
        · simp at h

/-- Witness for C7 (amended): a created-producer batch run that exits
normally and closes, and a protocol run with no close. -/
theorem close_on_exit_amended_witness :
    (bMain none (some "c") "eh" 0 false []
        (fun _ => SendEnv.mk true true true true true true)
        (fun _ => 0) 1).producerCreated = true ∧
    (bMain none (some "c") "eh" 0 false []
        (fun _ => SendEnv.mk true true true true true true)
        (fun _ => 0) 1).outcome ≠ BOutcome.outOfFuel ∧
    BEvent.close ∈ (bMain none (some "c") "eh" 0 false []
        (fun _ => SendEnv.mk true true true true true true)
        (fun _ => 0) 1).events ∧
    PEvent.close ∉ (pMain (some "c") "t" 1 none ["a"] [] (fun _ => false)
        0 0 none).events :=
  ⟨by decide, by decide,
   (close_on_exit_amended none (some "c") "eh" 0 false []
       (fun _ => SendEnv.mk true true true true true true) (fun _ => 0) 1
       (some "c") "t" 1 none ["a"] [] (fun _ => false) 0 0 none).1
     (by decide) (by decide),
   (close_on_exit_amended none (some "c") "eh" 0 false []
       (fun _ => SendEnv.mk true true true true true true) (fun _ => 0) 1
       (some "c") "t" 1 none ["a"] [] (fun _ => false) 0 0 none).2⟩

/-- **C8.** In both variants, if the connection secret is neither passed as
a flag nor present in the environment (absent or empty), the process
terminates at startup with a non-zero exit status and a descriptive
message, before any message is enqueued: the protocol-client variant's
`make_producer` raises `RuntimeError` so `main` exits non-zero with an
empty action trace, and the batch-API variant raises `SystemExit` before
the producer is created, with an empty action trace. -/
theorem missing_secret_exits_before_enqueue
    (envConn : Option String) (topic : String) (B : Int)
    (keyField : Option String) (fieldnames : List String) (rows : List Row)
    (bufFull : Nat → Bool) (delivered failed : Nat) (interruptAt : Option Nat)
    (ehConnFlag envConnB : Option String) (ehName : String) (interval : Nat)
    (loopFlag : Bool) (rowsB : List Row) (envs : Nat → SendEnv)
    (now : Nat → Nat) (fuel : Nat)
    (h1 : optTruthy envConn = false)
    (h2 : optTruthy (pyOr ehConnFlag envConnB) = false) :
    ((pMain envConn topic B keyField fieldnames rows bufFull delivered failed
        interruptAt).exitZero = false ∧
      (pMain envConn topic B keyField fieldnames rows bufFull delivered failed
        interruptAt).events = []) ∧
    ((bMain ehConnFlag envConnB ehName interval loopFlag rowsB envs now
        fuel).outcome = BOutcome.sysExit ∧
      bExitCode (bMain ehConnFlag envConnB ehName interval loopFlag rowsB envs
        now fuel).outcome = some 1 ∧
      (bMain ehConnFlag envConnB ehName interval loopFlag rowsB envs now
        fuel).producerCreated = false ∧
      (bMain ehConnFlag envConnB ehName interval loopFlag rowsB envs now
        fuel).events = []) := by
  have hmp : make_producer envConn
      = Except.error "EVENTHUB_CONN environment variable is not set. Export your full Event Hubs connection string." := by
    simp [make_producer, h1]
  constructor
  · constructor <;> simp [pMain, hmp]
  · refine ⟨?_, ?_, ?_, ?_⟩ <;> simp [bMain, h2, bExitCode]

/-- Witness for C8: secret absent in both variants. -/
theorem missing_secret_exits_before_enqueue_witness :
    optTruthy none = false ∧
    optTruthy (pyOr none none) = false ∧
    (((pMain none "t" 1 none ["a"] [[("a", "1")]] (fun _ => false) 0 0
        none).exitZero = false ∧
      (pMain none "t" 1 none ["a"] [[("a", "1")]] (fun _ => false) 0 0
        none).events = []) ∧
    ((bMain none none "eh" 0 false [[("a", "1")]]
        (fun _ => SendEnv.mk true true true true true true)
        (fun _ => 0) 2).outcome = BOutcome.sysExit ∧
      bExitCode (bMain none none "eh" 0 false [[("a", "1")]]
        (fun _ => SendEnv.mk true true true true true true)
        (fun _ => 0) 2).outcome = some 1 ∧
      (bMain none none "eh" 0 false [[("a", "1")]]
        (fun _ => SendEnv.mk true true true true true true)
        (fun _ => 0) 2).producerCreated = false ∧
      (bMain none none "eh" 0 false [[("a", "1")]]
        (fun _ => SendEnv.mk true true true true true true)
        (fun _ => 0) 2).events = [])) :=
  ⟨rfl, rfl,
   missing_secret_exits_before_enqueue none "t" 1 none ["a"] [[("a", "1")]]
     (fun _ => false) 0 0 none none none "eh" 0 false [[("a", "1")]]
     (fun _ => SendEnv.mk true true true true true true) (fun _ => 0) 2
     rfl rfl⟩

theorem warnCount_append (a b : List PEvent) :
    warnCount (a ++ b) = warnCount a + warnCount b := by
  simp [warnCount]

/-- **C9.** In the protocol-client variant, if the configured key-field name
is not among the CSV's column names, a warning is logged exactly once and
the run continues with the key feature disabled — every message is enqueued
with no key and all rows are still processed — rather than terminating. -/
theorem missing_key_column_warns_continues
    (topic : String) (B : Int) (kf : String) (fieldnames : List String)
    (rows : List Row) (bufFull : Nat → Bool) (delivered failed : Nat)
    (hk : kf ≠ "") (hmem : kf ∉ fieldnames) :
    warnCount (stream_csv topic B (some kf) fieldnames rows bufFull delivered
        failed).1 = 1 ∧
    produceOkKeys (stream_csv topic B (some kf) fieldnames rows bufFull
        delivered failed).1 = rows.map (fun _ => none) ∧
    (stream_csv topic B (some kf) fieldnames rows bufFull delivered failed).2
      = rows.length := by
  have hmiss : keyFieldMissing (some kf) fieldnames = true := by
    simp [keyFieldMissing, optTruthy, hk, hmem]
  have heff : effKeyField (some kf) fieldnames = none := by
    simp [effKeyField, hmiss]
  have hfunn : keyBytesOf none = fun _ : Row => (none : Option (List Nat)) := by
    funext r
    simp [keyBytesOf, keyStrOf, optTruthy]
  refine ⟨?_, ?_, ?_⟩
  · simp only [stream_csv, warnCount_append, warnCount_streamLoop]
    simp [streamHeader, hmiss, warnCount]
  · simp only [stream_csv, produceOkKeys_append, produceOkKeys_streamHeader,
      heff, streamLoop_okKeys, hfunn]
    simp [produceOkKeys]
  · simp [stream_csv, streamLoop_total]

/-- Witness for C9: key field `"b"` absent from columns `["a"]`. -/
theorem missing_key_column_warns_continues_witness :
    ("b" : String) ≠ "" ∧ "b" ∉ ["a"] ∧
    (warnCount (stream_csv "t" 1 (some "b") ["a"]
        [[("a", "1")], [("a", "2")]] (fun _ => false) 0 0).1 = 1 ∧
    produceOkKeys (stream_csv "t" 1 (some "b") ["a"]
        [[("a", "1")], [("a", "2")]] (fun _ => false) 0 0).1
      = ([[("a", "1")], [("a", "2")]] : List Row).map (fun _ => none) ∧
    (stream_csv "t" 1 (some "b") ["a"] [[("a", "1")], [("a", "2")]]
        (fun _ => false) 0 0).2
      = ([[("a", "1")], [("a", "2")]] : List Row).length) :=
  ⟨by decide, by decide,
   missing_key_column_warns_continues "t" 1 "b" ["a"]
     [[("a", "1")], [("a", "2")]] (fun _ => false) 0 0
     (by decide) (by decide)⟩

/-- **C10.** In the batch-API variant with the loop flag set, if the CSV
file contains zero data rows, the restart path itself raises
`StopIteration` — the `next` on the freshly re-opened generator, inside the
`except StopIteration` handler, is not caught — so the program terminates
abnormally (exit status 1) after closing the producer in the `finally`
block, instead of looping indefinitely; no message is ever sent. -/
theorem loop_empty_csv_raises_stop
    (ehConnFlag envConn : Option String) (ehName : String) (interval : Nat)
    (envs : Nat → SendEnv) (now : Nat → Nat) (fuel : Nat)
    (hconn : optTruthy (pyOr ehConnFlag envConn) = true) (hfuel : 1 ≤ fuel) :
    (bMain ehConnFlag envConn ehName interval true [] envs now fuel).outcome
      = BOutcome.raisedStop ∧
    bExitCode (bMain ehConnFlag envConn ehName interval true [] envs now
      fuel).outcome = some 1 ∧
    BEvent.close ∈ (bMain ehConnFlag envConn ehName interval true [] envs now
      fuel).events ∧
    defaultCreateCount (bMain ehConnFlag envConn ehName interval true [] envs
      now fuel).events = 0 := by
  obtain ⟨f, rfl⟩ : ∃ f, fuel = f + 1 := ⟨fuel - 1, by omega⟩
  refine ⟨?_, ?_, ?_, ?_⟩ <;>
    simp [bMain, hconn, bLoop, bExitCode, defaultCreateCount]

/-- Witness for C10: empty CSV, loop flag on, fuel 1. -/
theorem loop_empty_csv_raises_stop_witness :
    optTruthy (pyOr none (some "c")) = true ∧ (1 : Nat) ≤ 1 ∧
    ((bMain none (some "c") "eh" 0 true []
        (fun _ => SendEnv.mk true true true true true true)
        (fun _ => 0) 1).outcome = BOutcome.raisedStop ∧
    bExitCode (bMain none (some "c") "eh" 0 true []
        (fun _ => SendEnv.mk true true true true true true)
        (fun _ => 0) 1).outcome = some 1 ∧
    BEvent.close ∈ (bMain none (some "c") "eh" 0 true []
        (fun _ => SendEnv.mk true true true true true true)
        (fun _ => 0) 1).events ∧
    defaultCreateCount (bMain none (some "c") "eh" 0 true []
        (fun _ => SendEnv.mk true true true true true true)
        (fun _ => 0) 1).events = 0) :=
  ⟨by decide, by decide,
   loop_empty_csv_raises_stop none (some "c") "eh" 0
     (fun _ => SendEnv.mk true true true true true true) (fun _ => 0) 1
     (by decide) (by decide)⟩

end FlightPipeline
